import Mathlib

/-!
Verification of the weather-cli data pipeline (`weather.py`).

The embedding models the program's pure core directly from the source:
the WMO weather-code table, the 16-point compass formatting, the
time-string fallback parser, the geocoding result selection with its
optional-field defaults, the forecast request parameters, and the
two-stage pipeline in `main`.  Network effects are modelled by passing
the outcome of each HTTP request (success payload or request failure)
as an explicit argument; Python floats are modelled as rationals; a
Python function that can raise an uncaught exception is modelled as an
`Option`-valued function where `none` is the fault.
-/

/-- The `WEATHER_CODES` dict of `weather.py` (lines 27-56): WMO code to
(description, emoji icon), as an association list in source order. -/
def WEATHER_CODES : List (Int × String × String) :=
  [ (0, "Clear sky", "☀️")
  , (1, "Mainly clear", "🌤️")
  , (2, "Partly cloudy", "⛅")
  , (3, "Overcast", "☁️")
  , (45, "Fog", "🌫️")
  , (48, "Depositing rime fog", "🌫️")
  , (51, "Light drizzle", "🌦️")
  , (53, "Moderate drizzle", "🌦️")
  , (55, "Dense drizzle", "🌧️")
  , (56, "Light freezing drizzle", "🌧️")
  , (57, "Dense freezing drizzle", "🌧️")
  , (61, "Slight rain", "🌧️")
  , (63, "Moderate rain", "🌧️")
  , (65, "Heavy rain", "🌧️")
  , (66, "Light freezing rain", "🌧️")
  , (67, "Heavy freezing rain", "🌧️")
  , (71, "Slight snowfall", "❄️")
  , (73, "Moderate snowfall", "❄️")
  , (75, "Heavy snowfall", "❄️")
  , (77, "Snow grains", "❄️")
  , (80, "Slight rain showers", "🌦️")
  , (81, "Moderate rain showers", "🌦️")
  , (82, "Violent rain showers", "🌧️")
  , (85, "Slight snow showers", "❄️")
  , (86, "Heavy snow showers", "❄️")
  , (95, "Thunderstorm", "⛈️")
  , (96, "Thunderstorm with slight hail", "⛈️")
  , (99, "Thunderstorm with heavy hail", "⛈️")
  ]

/-- The `CARDINAL_DIRECTIONS` list of `weather.py` (lines 58-61). -/
def CARDINAL_DIRECTIONS : List String :=
  [ "N", "NNE", "NE", "ENE", "E", "ESE", "SE", "SSE"
  , "S", "SSW", "SW", "WSW", "W", "WNW", "NW", "NNW" ]

/-- Dictionary lookup `WEATHER_CODES[code]` guarded by `code in WEATHER_CODES`,
shared by `get_weather_icon` and `get_weather_description`. -/
def weatherCodeLookup (code : ℤ) : Option (String × String) :=
  (WEATHER_CODES.find? (fun p => p.1 == code)).map Prod.snd

/-- `get_weather_icon` (lines 133-137): the emoji for a WMO code, with
fallback "🌡️" for codes outside the table. -/
def get_weather_icon (code : ℤ) : String :=
  match weatherCodeLookup code with
  | some p => p.2
  | none => "🌡️"

/-- `get_weather_description` (lines 140-144): the text description for a
WMO code, with fallback "Unknown" for codes outside the table. -/
def get_weather_description (code : ℤ) : String :=
  match weatherCodeLookup code with
  | some p => p.1
  | none => "Unknown"

/-- Python's built-in `round` on the exact value, over ℚ: round to the
nearest integer, ties to the even integer (banker's rounding). -/
def pyRound (q : ℚ) : ℤ :=
  if q - (⌊q⌋ : ℚ) < 1/2 then ⌊q⌋
  else if (1:ℚ)/2 < q - (⌊q⌋ : ℚ) then ⌊q⌋ + 1
  else if ⌊q⌋ % 2 = 0 then ⌊q⌋ else ⌊q⌋ + 1

/-- Python's format spec `:.1f` on the exact value, over ℚ: one decimal
place with rounding to nearest (ties to even). -/
def formatFixed1 (q : ℚ) : String :=
  let n : ℤ := pyRound (q * 10)
  let sign := if n < 0 then "-" else ""
  sign ++ toString (n.natAbs / 10) ++ "." ++ toString (n.natAbs % 10)

/-- `format_temperature` (lines 147-150). -/
def format_temperature (temp : ℚ) (use_fahrenheit : Bool) : String :=
  let unit := if use_fahrenheit then "°F" else "°C"
  formatFixed1 temp ++ unit

/-- The line `index = round(direction_degrees / 22.5) % 16` of `format_wind`
(line 156).  Python's `%` on integers agrees with `Int.emod` for the
positive modulus 16. -/
def windIndex (direction_degrees : ℚ) : ℤ :=
  (pyRound (direction_degrees / (22.5 : ℚ))) % 16

/-- The line `cardinal = CARDINAL_DIRECTIONS[index]` of `format_wind`
(line 157).  The index is proven in bounds below, so the `getD` default
is unreachable. -/
def windCardinal (direction_degrees : ℚ) : String :=
  CARDINAL_DIRECTIONS.getD (windIndex direction_degrees).toNat ""

/-- `format_wind` (lines 153-158): speed to one decimal, unit by the
unit-system flag, then the 16-point cardinal direction. -/
def format_wind (speed : ℚ) (direction_degrees : ℚ) (use_fahrenheit : Bool) : String :=
  let unit := if use_fahrenheit then "mph" else "km/h"
  let cardinal := windCardinal direction_degrees
  formatFixed1 speed ++ " " ++ unit ++ " " ++ cardinal

/-- A parsed local date-time, the fields of Python's `datetime` used by
`format_time` and `strftime`. -/
structure PyDateTime where
  year : Nat
  month : Nat
  day : Nat
  hour : Nat
  minute : Nat
  second : Nat
deriving DecidableEq

/-- Value of a decimal digit character, `none` for non-digits. -/
def digitVal (c : Char) : Option Nat :=
  if c.isDigit then some (c.toNat - 48) else none

/-- Two decimal digit characters as a number. -/
def twoDigitNat (a b : Char) : Option Nat := do
  let x ← digitVal a
  let y ← digitVal b
  pure (10 * x + y)

/-- Four decimal digit characters as a number. -/
def fourDigitNat (a b c d : Char) : Option Nat := do
  let x ← twoDigitNat a b
  let y ← twoDigitNat c d
  pure (100 * x + y)

/-- Gregorian leap-year rule used by Python's `datetime` validation. -/
def isLeapYear (y : Nat) : Bool :=
  (y % 4 == 0 && y % 100 != 0) || y % 400 == 0

/-- Number of days of a month for `datetime` field validation. -/
def daysInMonth (y m : Nat) : Nat :=
  if m = 2 then (if isLeapYear y then 29 else 28)
  else if m = 4 || m = 6 || m = 9 || m = 11 then 30
  else 31

/-- Range validation performed by the `datetime` constructor: year at least
1, month 1-12, day 1-days of the month, hour 0-23, minute and second 0-59. -/
def mkDateTime (y mo d h mi s : Nat) : Option PyDateTime :=
  if 1 ≤ y ∧ 1 ≤ mo ∧ mo ≤ 12 ∧ 1 ≤ d ∧ d ≤ daysInMonth y mo ∧ h ≤ 23 ∧ mi ≤ 59 ∧ s ≤ 59
  then some ⟨y, mo, d, h, mi, s⟩
  else none

/-- Python's `datetime.fromisoformat` on the local date-time strings this
program receives (stdlib collaborator, modelled per the spec): accepts
`YYYY-MM-DD`, optionally followed by a single separator character and
`HH:MM` or `HH:MM:SS`, with full field-range validation; every other
string is a parse failure (`ValueError`, modelled as `none`). -/
def fromisoformat (s : String) : Option PyDateTime :=
  match s.toList with
  | [y1, y2, y3, y4, '-', o1, o2, '-', d1, d2] => do
      let y ← fourDigitNat y1 y2 y3 y4
      let mo ← twoDigitNat o1 o2
      let d ← twoDigitNat d1 d2
      mkDateTime y mo d 0 0 0
  | [y1, y2, y3, y4, '-', o1, o2, '-', d1, d2, _, h1, h2, ':', n1, n2] => do
      let y ← fourDigitNat y1 y2 y3 y4
      let mo ← twoDigitNat o1 o2
      let d ← twoDigitNat d1 d2
      let h ← twoDigitNat h1 h2
      let mi ← twoDigitNat n1 n2
      mkDateTime y mo d h mi 0
  | [y1, y2, y3, y4, '-', o1, o2, '-', d1, d2, _, h1, h2, ':', n1, n2, ':', s1, s2] => do
      let y ← fourDigitNat y1 y2 y3 y4
      let mo ← twoDigitNat o1 o2
      let d ← twoDigitNat d1 d2
      let h ← twoDigitNat h1 h2
      let mi ← twoDigitNat n1 n2
      let sec ← twoDigitNat s1 s2
      mkDateTime y mo d h mi sec
  | _ => none

/-- Two-digit zero-padded rendering, as `%M` in `strftime`. -/
def pad2 (n : Nat) : String :=
  if n < 10 then "0" ++ toString n else toString n

/-- The `strftime("%-I:%M %p")` call of `format_time` (line 165): 12-hour
clock without a leading zero on the hour, minutes, AM or PM. -/
def strftimeClock (dt : PyDateTime) : String :=
  let h12 := if dt.hour % 12 = 0 then 12 else dt.hour % 12
  toString h12 ++ ":" ++ pad2 dt.minute ++ " " ++ (if dt.hour < 12 then "AM" else "PM")

/-- `format_time` (lines 161-167): parse the ISO string and render a
12-hour clock; on `ValueError`/`TypeError` (parse failure) return the
input string unchanged. -/
def format_time (iso_str : String) : String :=
  match fromisoformat iso_str with
  | some dt => strftimeClock dt
  | none => iso_str

/-- One entry of the geocoding response's `results` array: `name`,
`country` and `admin1` are read with `.get` in the source, hence optional;
`latitude`/`longitude` are indexed directly (their absence is out of the
modelled scope, the source would raise `KeyError`). -/
structure GeoResult where
  name : Option String
  latitude : ℚ
  longitude : ℚ
  country : Option String
  admin1 : Option String

/-- The location dict built by `geocode_city` (lines 81-87). -/
structure Location where
  name : String
  latitude : ℚ
  longitude : ℚ
  country : String
  admin1 : String
deriving DecidableEq

/-- Outcome of the geocoding HTTP request: `failure` covers every
`requests.RequestException` (timeout, connection failure, and the
non-success statuses turned into exceptions by `raise_for_status`);
`success` carries the parsed JSON body, where the `results` key may be
absent (`none`) or present with a list. -/
inductive GeoHttp where
  | failure (detail : String)
  | success (results : Option (List GeoResult))

/-- `geocode_city` (lines 66-90), with the request outcome passed
explicitly.  Returns the resolved location option together with the list
of messages the function prints: on a request exception it prints a
connection-error line and returns `None`; on an absent or empty `results`
array it returns `None`; otherwise it builds the location from the first
result, defaulting `name` to the input city name and `country`/`admin1`
to the empty string. -/
def geocode_city (city_name : String) (http : GeoHttp) : Option Location × List String :=
  match http with
  | GeoHttp.failure e =>
      (none, ["Error connecting to geocoding service: " ++ e])
  | GeoHttp.success none => (none, [])
  | GeoHttp.success (some []) => (none, [])
  | GeoHttp.success (some (result :: _)) =>
      ( some { name := result.name.getD city_name
             , latitude := result.latitude
             , longitude := result.longitude
             , country := result.country.getD ""
             , admin1 := result.admin1.getD "" }
      , [] )

/-- A query-parameter value as serialized into the forecast request. -/
inductive ParamVal where
  | num (q : ℚ)
  | str (s : String)
  | int (n : Nat)
deriving DecidableEq

/-- The `current` field list of the forecast request (lines 98-105). -/
def current_fields : List String :=
  [ "temperature_2m", "relative_humidity_2m", "apparent_temperature"
  , "weather_code", "wind_speed_10m", "wind_direction_10m" ]

/-- The `daily` field list of the forecast request (lines 106-113). -/
def daily_fields : List String :=
  [ "temperature_2m_max", "temperature_2m_min", "weather_code"
  , "precipitation_sum", "sunrise", "sunset" ]

/-- The `params` dict built by `fetch_weather` (lines 95-120): base
parameters always present, plus `temperature_unit=fahrenheit` and
`wind_speed_unit=mph` added exactly when the Fahrenheit flag is set. -/
def fetch_weather_params (lat lon : ℚ) (use_fahrenheit : Bool) : List (String × ParamVal) :=
  let base :=
    [ ("latitude", ParamVal.num lat)
    , ("longitude", ParamVal.num lon)
    , ("current", ParamVal.str (String.intercalate "," current_fields))
    , ("daily", ParamVal.str (String.intercalate "," daily_fields))
    , ("timezone", ParamVal.str "auto")
    , ("forecast_days", ParamVal.int 5) ]
  if use_fahrenheit then
    base ++ [ ("temperature_unit", ParamVal.str "fahrenheit")
            , ("wind_speed_unit", ParamVal.str "mph") ]
  else base

/-- The `current` object of the forecast response as read by
`display_current_weather`: only `weather_code` is read with `.get`
(default 0); the other fields are indexed directly, so their absence is a
`KeyError` fault, modelled as `Option` fields with no default. -/
structure CurrentBlock where
  temperature_2m : Option ℚ
  relative_humidity_2m : Option ℤ
  apparent_temperature : Option ℚ
  weather_code : Option ℤ
  wind_speed_10m : Option ℚ
  wind_direction_10m : Option ℚ
deriving DecidableEq

/-- The `daily` object of the forecast response: index-aligned arrays. -/
structure DailyBlock where
  time : List String
  temperature_2m_max : List ℚ
  temperature_2m_min : List ℚ
  weather_code : List ℤ
  precipitation_sum : List ℚ
  sunrise : List String
  sunset : List String
deriving DecidableEq

/-- A parsed forecast response body. -/
structure WeatherPayload where
  current : CurrentBlock
  daily : DailyBlock
deriving DecidableEq

/-- Outcome of the forecast HTTP request, as for `GeoHttp`. -/
inductive WeatherHttp where
  | failure (detail : String)
  | success (payload : WeatherPayload)

/-- The request-and-parse part of `fetch_weather` (lines 93-128), with
the request outcome passed explicitly (the `params` dict it sends is
`fetch_weather_params lat lon use_fahrenheit`): on a request exception it
prints an error line and returns `None`, otherwise it returns the parsed
body. -/
def fetch_weather (lat lon : ℚ) (use_fahrenheit : Bool) (http : WeatherHttp) :
    Option WeatherPayload × List String :=
  match http with
  | WeatherHttp.failure e => (none, ["Error fetching weather data: " ++ e])
  | WeatherHttp.success payload => (some payload, [])

/-- `display_current_weather` (lines 172-219), reduced to the data rows it
adds to the table (label, rendered value), in source order.  `weather_code`
is read with `.get(.., 0)`; each other field access raises `KeyError` when
the field is absent, modelled as a `none` result.  The accesses happen in
the source's row order: temperature, apparent temperature, humidity, wind. -/
def display_current_weather (location : Location) (weather : WeatherPayload)
    (use_fahrenheit : Bool) : Option (List (String × String)) :=
  let current := weather.current
  let code := current.weather_code.getD 0
  let icon := get_weather_icon code
  let description := get_weather_description code
  do
    let t ← current.temperature_2m
    let feels ← current.apparent_temperature
    let hum ← current.relative_humidity_2m
    let ws ← current.wind_speed_10m
    let wd ← current.wind_direction_10m
    pure [ ("Temperature:", format_temperature t use_fahrenheit)
         , ("Feels like:", format_temperature feels use_fahrenheit)
         , ("Humidity:", toString hum ++ "%")
         , ("Wind:", format_wind ws wd use_fahrenheit)
         , ("Conditions:", icon ++ "  " ++ description) ]

/-- Observable result of one run of `main` (lines 302-328): the
city-not-found exit (status 1), the weather-fetch-error exit (status 1),
or the displayed data. -/
inductive MainOutcome where
  | cityNotFoundExit1
  | weatherErrorExit1
  | displayed (location : Location) (weather : WeatherPayload)
deriving DecidableEq

/-- A run outcome together with whether the forecast request was issued. -/
structure PipelineTrace where
  outcome : MainOutcome
  forecastInvoked : Bool
deriving DecidableEq

/-- The pipeline of `main` (lines 313-327): geocode the city; on `None`
print the city-not-found message and exit 1 without ever calling
`fetch_weather`; otherwise fetch the weather with the resolved
coordinates; on `None` exit 1; otherwise display. -/
def main_run (city_name : String) (use_fahrenheit : Bool)
    (geoHttp : GeoHttp) (weatherHttp : WeatherHttp) : PipelineTrace :=
  match (geocode_city city_name geoHttp).1 with
  | none => { outcome := MainOutcome.cityNotFoundExit1, forecastInvoked := false }
  | some location =>
      match (fetch_weather location.latitude location.longitude use_fahrenheit weatherHttp).1 with
      | none => { outcome := MainOutcome.weatherErrorExit1, forecastInvoked := true }
      | some weather =>
          { outcome := MainOutcome.displayed location weather, forecastInvoked := true }

/-! ## Claim theorems -/

/-- C3: the weather-code lookup is total: each of the 28 WMO codes maps to
exactly its documented (description, icon) pair, and every integer code
outside that set maps to the fallback ("Unknown", "🌡️"). -/
theorem weather_code_table_total :
    ((get_weather_description 0 = "Clear sky" ∧ get_weather_icon 0 = "☀️")
      ∧ (get_weather_description 1 = "Mainly clear" ∧ get_weather_icon 1 = "🌤️")
      ∧ (get_weather_description 2 = "Partly cloudy" ∧ get_weather_icon 2 = "⛅")
      ∧ (get_weather_description 3 = "Overcast" ∧ get_weather_icon 3 = "☁️")
      ∧ (get_weather_description 45 = "Fog" ∧ get_weather_icon 45 = "🌫️")
      ∧ (get_weather_description 48 = "Depositing rime fog" ∧ get_weather_icon 48 = "🌫️")
      ∧ (get_weather_description 51 = "Light drizzle" ∧ get_weather_icon 51 = "🌦️")
      ∧ (get_weather_description 53 = "Moderate drizzle" ∧ get_weather_icon 53 = "🌦️")
      ∧ (get_weather_description 55 = "Dense drizzle" ∧ get_weather_icon 55 = "🌧️")
      ∧ (get_weather_description 56 = "Light freezing drizzle" ∧ get_weather_icon 56 = "🌧️")
      ∧ (get_weather_description 57 = "Dense freezing drizzle" ∧ get_weather_icon 57 = "🌧️")
      ∧ (get_weather_description 61 = "Slight rain" ∧ get_weather_icon 61 = "🌧️")
      ∧ (get_weather_description 63 = "Moderate rain" ∧ get_weather_icon 63 = "🌧️")
      ∧ (get_weather_description 65 = "Heavy rain" ∧ get_weather_icon 65 = "🌧️")
      ∧ (get_weather_description 66 = "Light freezing rain" ∧ get_weather_icon 66 = "🌧️")
      ∧ (get_weather_description 67 = "Heavy freezing rain" ∧ get_weather_icon 67 = "🌧️")
      ∧ (get_weather_description 71 = "Slight snowfall" ∧ get_weather_icon 71 = "❄️")
      ∧ (get_weather_description 73 = "Moderate snowfall" ∧ get_weather_icon 73 = "❄️")
      ∧ (get_weather_description 75 = "Heavy snowfall" ∧ get_weather_icon 75 = "❄️")
      ∧ (get_weather_description 77 = "Snow grains" ∧ get_weather_icon 77 = "❄️")
      ∧ (get_weather_description 80 = "Slight rain showers" ∧ get_weather_icon 80 = "🌦️")
      ∧ (get_weather_description 81 = "Moderate rain showers" ∧ get_weather_icon 81 = "🌦️")
      ∧ (get_weather_description 82 = "Violent rain showers" ∧ get_weather_icon 82 = "🌧️")
      ∧ (get_weather_description 85 = "Slight snow showers" ∧ get_weather_icon 85 = "❄️")
      ∧ (get_weather_description 86 = "Heavy snow showers" ∧ get_weather_icon 86 = "❄️")
      ∧ (get_weather_description 95 = "Thunderstorm" ∧ get_weather_icon 95 = "⛈️")
      ∧ (get_weather_description 96 = "Thunderstorm with slight hail" ∧ get_weather_icon 96 = "⛈️")
      ∧ (get_weather_description 99 = "Thunderstorm with heavy hail" ∧ get_weather_icon 99 = "⛈️"))
    ∧ ∀ code : ℤ,
        code ∉ ([0, 1, 2, 3, 45, 48, 51, 53, 55, 56, 57, 61, 63, 65, 66, 67, 71, 73,
                 75, 77, 80, 81, 82, 85, 86, 95, 96, 99] : List ℤ) →
        get_weather_description code = "Unknown" ∧ get_weather_icon code = "🌡️" := by
  constructor
  · decide
  · intro code hc
    have hfind : WEATHER_CODES.find? (fun p => p.1 == code) = none := by
      rw [List.find?_eq_none]
      intro x hx
      simp only [beq_iff_eq]
      intro hxc
      apply hc
      rw [← hxc]
      have hmap : WEATHER_CODES.map Prod.fst
          = ([0, 1, 2, 3, 45, 48, 51, 53, 55, 56, 57, 61, 63, 65, 66, 67, 71, 73,
              75, 77, 80, 81, 82, 85, 86, 95, 96, 99] : List ℤ) := by rfl
      exact hmap ▸ List.mem_map.mpr ⟨x, hx, rfl⟩
    constructor
    · simp [get_weather_description, weatherCodeLookup, hfind]
    · simp [get_weather_icon, weatherCodeLookup, hfind]

/-- Witness for C3 at the concrete out-of-table code 100. -/
theorem weather_code_table_total_witness :
    get_weather_description 100 = "Unknown" ∧ get_weather_icon 100 = "🌡️" :=
  weather_code_table_total.2 100 (by decide)

/-- C4: `format_time` is a total function on strings; on every input whose
parse fails it returns the original input unchanged, and on the spec's
example well-formed input it renders the 12-hour clock. -/
theorem format_time_total_fallback :
    format_time "2024-03-10T06:45:00" = "6:45 AM"
    ∧ ∀ s : String, fromisoformat s = none → format_time s = s := by
  constructor
  · decide
  · intro s h
    simp [format_time, h]

/-- Witness for C4 at the concrete malformed input "not-a-date". -/
theorem format_time_total_fallback_witness :
    fromisoformat "not-a-date" = none ∧ format_time "not-a-date" = "not-a-date" :=
  ⟨by decide, format_time_total_fallback.2 "not-a-date" (by decide)⟩

/-- Rounding an integer-valued rational is the identity. -/
theorem pyRound_intCast (z : ℤ) : pyRound ((z : ℚ)) = z := by
  unfold pyRound
  rw [Int.floor_intCast]
  norm_num

/-- Rounding commutes with adding 16: the fractional part and the parity
branch are unchanged. -/
theorem pyRound_add_sixteen (q : ℚ) : pyRound (q + 16) = pyRound q + 16 := by
  have hfloor : ⌊q + (16 : ℚ)⌋ = ⌊q⌋ + 16 := by
    rw [show (16 : ℚ) = ((16 : ℤ) : ℚ) by norm_num, Int.floor_add_int]
  unfold pyRound
  rw [hfloor]
  have hfrac : q + 16 - ((⌊q⌋ + 16 : ℤ) : ℚ) = q - (⌊q⌋ : ℚ) := by
    push_cast
    ring
  rw [hfrac]
  split_ifs <;> omega

theorem windIndex_zero : windIndex 0 = 0 := by
  unfold windIndex
  rw [show (0 : ℚ) / (22.5 : ℚ) = ((0 : ℤ) : ℚ) by norm_num, pyRound_intCast]
  rfl

theorem windIndex_ninety : windIndex 90 = 4 := by
  unfold windIndex
  rw [show (90 : ℚ) / (22.5 : ℚ) = ((4 : ℤ) : ℚ) by norm_num, pyRound_intCast]
  rfl

theorem windIndex_one_eighty : windIndex 180 = 8 := by
  unfold windIndex
  rw [show (180 : ℚ) / (22.5 : ℚ) = ((8 : ℤ) : ℚ) by norm_num, pyRound_intCast]
  rfl

theorem windIndex_two_seventy : windIndex 270 = 12 := by
  unfold windIndex
  rw [show (270 : ℚ) / (22.5 : ℚ) = ((12 : ℤ) : ℚ) by norm_num, pyRound_intCast]
  rfl

theorem windCardinal_zero : windCardinal 0 = "N" := by
  rw [windCardinal, windIndex_zero]
  rfl

theorem windCardinal_ninety : windCardinal 90 = "E" := by
  rw [windCardinal, windIndex_ninety]
  rfl

theorem windCardinal_one_eighty : windCardinal 180 = "S" := by
  rw [windCardinal, windIndex_one_eighty]
  rfl

theorem windCardinal_two_seventy : windCardinal 270 = "W" := by
  rw [windCardinal, windIndex_two_seventy]
  rfl

/-- C5: for every speed and unit system, `format_wind` selects the cardinal
label N at 0 degrees, E at 90, S at 180 and W at 270, via the 16-entry
compass table indexed by `round(degrees / 22.5) % 16`. -/
theorem format_wind_cardinal_points (speed : ℚ) (u : Bool) :
    format_wind speed 0 u
      = formatFixed1 speed ++ " " ++ (if u then "mph" else "km/h") ++ " " ++ "N"
    ∧ format_wind speed 90 u
      = formatFixed1 speed ++ " " ++ (if u then "mph" else "km/h") ++ " " ++ "E"
    ∧ format_wind speed 180 u
      = formatFixed1 speed ++ " " ++ (if u then "mph" else "km/h") ++ " " ++ "S"
    ∧ format_wind speed 270 u
      = formatFixed1 speed ++ " " ++ (if u then "mph" else "km/h") ++ " " ++ "W" := by
  refine ⟨?_, ?_, ?_, ?_⟩ <;>
    simp only [format_wind, windCardinal_zero, windCardinal_ninety,
      windCardinal_one_eighty, windCardinal_two_seventy]

/-- The selected compass index is periodic with period 360 degrees. -/
theorem windIndex_period (d : ℚ) : windIndex (d + 360) = windIndex d := by
  unfold windIndex
  rw [show (d + 360) / (22.5 : ℚ) = d / (22.5 : ℚ) + 16 by ring, pyRound_add_sixteen]
  omega

/-- C6: the cardinal-direction selection of `format_wind` is periodic with
period 360: the rendered wind string is unchanged by adding 360 degrees. -/
theorem format_wind_periodic (speed d : ℚ) (u : Bool) :
    format_wind speed (d + 360) u = format_wind speed d u := by
  simp only [format_wind, windCardinal, windIndex_period]

/-- C9: `format_wind` needs no normalization precondition on the direction:
for every rational direction, the computed index `round(d / 22.5) % 16`
lies in [0, 16), so the cardinal lookup never indexes out of bounds of the
16-entry table. -/
theorem windIndex_in_bounds (d : ℚ) :
    0 ≤ windIndex d ∧ windIndex d < 16
      ∧ (windIndex d).toNat < CARDINAL_DIRECTIONS.length := by
  have hlen : CARDINAL_DIRECTIONS.length = 16 := rfl
  rw [hlen]
  unfold windIndex
  omega

/-- C1 (counterexample): the code conflates the two geocoding failure
kinds at the pipeline boundary.  A network failure ("timed out") and a
successful response with zero results both make `geocode_city` return
`None`, and `main` produces the identical city-not-found trace for both,
so the two failure kinds are not distinguishable from the pipeline
outcome. -/
theorem geo_failures_conflated_cex :
    (geocode_city "Berlin" (GeoHttp.failure "timed out")).1
      = (geocode_city "Berlin" (GeoHttp.success (some []))).1
    ∧ main_run "Berlin" false (GeoHttp.failure "timed out") (WeatherHttp.failure "x")
      = main_run "Berlin" false (GeoHttp.success (some [])) (WeatherHttp.failure "x")
    ∧ (main_run "Berlin" false (GeoHttp.failure "timed out") (WeatherHttp.failure "x")).outcome
      = MainOutcome.cityNotFoundExit1 :=
  ⟨rfl, rfl, rfl⟩

/-- C1 (amended): both geocoding failure kinds collapse to the same `None`
value at the pipeline boundary, and `main` surfaces both as the
city-not-found exit; the only distinction between them is the extra
diagnostic line that `geocode_city` prints before returning on a network
failure. -/
theorem geo_failure_kinds_distinguished_only_by_message
    (city e : String) (u : Bool) (wh : WeatherHttp) :
    (geocode_city city (GeoHttp.failure e)).1 = none
    ∧ (geocode_city city (GeoHttp.success (some []))).1 = none
    ∧ (geocode_city city (GeoHttp.failure e)).2
        = ["Error connecting to geocoding service: " ++ e]
    ∧ (geocode_city city (GeoHttp.success (some []))).2 = []
    ∧ (main_run city u (GeoHttp.failure e) wh).outcome = MainOutcome.cityNotFoundExit1
    ∧ (main_run city u (GeoHttp.success (some [])) wh).outcome
        = MainOutcome.cityNotFoundExit1 :=
  ⟨rfl, rfl, rfl, rfl, rfl, rfl⟩

/-- C2: when the geocoding stage returns no location, `main` never issues
the forecast request and ends in the city-not-found exit, with no partial
result. -/
theorem pipeline_short_circuit (city : String) (u : Bool) (gh : GeoHttp) (wh : WeatherHttp)
    (h : (geocode_city city gh).1 = none) :
    (main_run city u gh wh).forecastInvoked = false
    ∧ (main_run city u gh wh).outcome = MainOutcome.cityNotFoundExit1 := by
  unfold main_run
  rw [h]
  exact ⟨rfl, rfl⟩

/-- Witness for C2 at a concrete empty geocoding response. -/
theorem pipeline_short_circuit_witness :
    (main_run "Atlantis" false (GeoHttp.success (some []))
        (WeatherHttp.failure "x")).forecastInvoked = false
    ∧ (main_run "Atlantis" false (GeoHttp.success (some []))
        (WeatherHttp.failure "x")).outcome = MainOutcome.cityNotFoundExit1 :=
  pipeline_short_circuit "Atlantis" false (GeoHttp.success (some []))
    (WeatherHttp.failure "x") rfl

/-- C7: when the first geocoding result lacks `country` and `admin1`, the
resolved location carries empty strings for those fields (a success, not a
failure), and when it also lacks `name`, the location's name defaults to
the input place name. -/
theorem geocode_optional_defaults (city : String) (r : GeoResult) (rest : List GeoResult)
    (hc : r.country = none) (ha : r.admin1 = none) :
    ∃ loc, (geocode_city city (GeoHttp.success (some (r :: rest)))).1 = some loc
      ∧ loc.country = "" ∧ loc.admin1 = "" ∧ (r.name = none → loc.name = city) := by
  refine ⟨_, rfl, ?_, ?_, ?_⟩
  · show r.country.getD "" = ""
    rw [hc]
    rfl
  · show r.admin1.getD "" = ""
    rw [ha]
    rfl
  · intro hn
    show r.name.getD city = city
    rw [hn]
    rfl

/-- Witness for C7 at a concrete result with all optional fields absent. -/
theorem geocode_optional_defaults_witness :
    ∃ loc, (geocode_city "Paris"
        (GeoHttp.success (some [⟨none, 1, 2, none, none⟩]))).1 = some loc
      ∧ loc.country = "" ∧ loc.admin1 = ""
      ∧ ((⟨none, 1, 2, none, none⟩ : GeoResult).name = none → loc.name = "Paris") :=
  geocode_optional_defaults "Paris" ⟨none, 1, 2, none, none⟩ [] rfl rfl

/-- C8: the forecast request parameters always include `timezone=auto` and
`forecast_days=5`, and include `temperature_unit=fahrenheit` and
`wind_speed_unit=mph` exactly when the Imperial system is selected. -/
theorem fetch_weather_params_units (lat lon : ℚ) (u : Bool) :
    ("timezone", ParamVal.str "auto") ∈ fetch_weather_params lat lon u
    ∧ ("forecast_days", ParamVal.int 5) ∈ fetch_weather_params lat lon u
    ∧ (("temperature_unit", ParamVal.str "fahrenheit") ∈ fetch_weather_params lat lon u
        ↔ u = true)
    ∧ (("wind_speed_unit", ParamVal.str "mph") ∈ fetch_weather_params lat lon u
        ↔ u = true) := by
  cases u <;> simp [fetch_weather_params]

theorem conditions_row_zero :
    get_weather_icon 0 ++ "  " ++ get_weather_description 0 = "☀️  Clear sky" := by
  decide

/-- C10: when the `current` object lacks `weather_code`, the display treats
the code as 0 and renders the "☀️  Clear sky" conditions row instead of
failing; the absence of any of the five other current fields is a fault
(no rendered rows). -/
theorem current_weather_code_default :
    (∀ (loc : Location) (u : Bool) (t feels ws wd : ℚ) (hum : ℤ) (daily : DailyBlock),
      display_current_weather loc
          ⟨⟨some t, some hum, some feels, none, some ws, some wd⟩, daily⟩ u
        = some [ ("Temperature:", format_temperature t u)
               , ("Feels like:", format_temperature feels u)
               , ("Humidity:", toString hum ++ "%")
               , ("Wind:", format_wind ws wd u)
               , ("Conditions:", "☀️  Clear sky") ])
    ∧ (∀ (loc : Location) (w : WeatherPayload) (u : Bool),
        (w.current.temperature_2m = none ∨ w.current.apparent_temperature = none
          ∨ w.current.relative_humidity_2m = none ∨ w.current.wind_speed_10m = none
          ∨ w.current.wind_direction_10m = none) →
        display_current_weather loc w u = none) := by
  constructor
  · intro loc u t feels ws wd hum daily
    simp only [display_current_weather, Option.getD_none, Option.bind_some,
      conditions_row_zero]
    rw [← conditions_row_zero]
    rfl
  · intro loc w u h
    obtain ⟨⟨t, hum, feels, wc, ws, wd⟩, daily⟩ := w
    dsimp only at h
    rcases h with h | h | h | h | h
    · rw [h]
      rfl
    · rw [h]
      cases t <;> rfl
    · rw [h]
      cases t <;> cases feels <;> rfl
    · rw [h]
      cases t <;> cases feels <;> cases hum <;> rfl
    · rw [h]
      cases t <;> cases feels <;> cases hum <;> cases ws <;> rfl

/-- Witness for C10 at a concrete current object missing `temperature_2m`. -/
theorem current_weather_code_default_witness :
    display_current_weather ⟨"Springfield", 39, -89, "United States", "Illinois"⟩
      ⟨⟨none, some 50, some 20, some 0, some 5, some 90⟩, ⟨[], [], [], [], [], [], []⟩⟩
      false = none :=
  current_weather_code_default.2 ⟨"Springfield", 39, -89, "United States", "Illinois"⟩
    ⟨⟨none, some 50, some 20, some 0, some 5, some 90⟩, ⟨[], [], [], [], [], [], []⟩⟩
    false (Or.inl rfl)
